import Mathlib

/-!
Verification of the AttachmentModal component (attachment preview/upload
modal) of the Expensify client: modal visibility state machine, file
validation pipeline, confirmation gate, and receipt lifecycle menu.

The component is a React function component; we embed its local state as a
structure, its callbacks as pure state transformers returning the updated
state (plus a list of emitted external-effect events where the claims need
them), and the asynchronous modal show/hide lifecycle as a small labelled
transition system driven by an explicit action list.

External collaborators that live outside the provided sources
(CONST.API_ATTACHMENT_VALIDATIONS size bounds, FileUtils.cleanFileName,
Str.isPDF, URL.createObjectURL, the ReportUtils/TransactionUtils/Policy
predicates, and the Modal surface's animation-completion discipline) are
modelled as explicit parameters or boolean inputs, per the spec's statement
that their exact values are external configuration.
-/

namespace AttachmentModal

/-- A JavaScript file-like object as the component reads it: `name`, `size`
and `uri` are accessed defensively (lodashGet with defaults / `||`
fallbacks), so each is an `Option`; `isFileInstance` records the
`fileObject instanceof File` test; `mimeType` is the `type` property, preserved
when the file is rebuilt under a cleaned name. -/
structure FileData where
  name : Option String
  size : Option Nat
  uri : Option String
  isFileInstance : Bool
  mimeType : Option String
  deriving Repr, DecidableEq

/-- The value of `lodashGet(_file, 'size', 0)`: the size property when
present, else the default 0. -/
def FileData.sizeOrZero (f : FileData) : Nat :=
  f.size.getD 0

/-- A drag/drop/picker payload as `validateAndDisplayFileToUpload` receives
it: `hasWebkitGetAsEntry` is the `typeof _data.webkitGetAsEntry === 'function'`
test, `entryIsDirectory` the `.isDirectory` flag of the returned entry;
`hasGetAsFile` is the `typeof _data.getAsFile === 'function'` test and
`getAsFileResult` its (possibly null) result; `selfFile` is the payload
itself viewed as a file-like object when no `getAsFile` is present. -/
structure DropPayload where
  hasWebkitGetAsEntry : Bool
  entryIsDirectory : Bool
  hasGetAsFile : Bool
  getAsFileResult : Option FileData
  selfFile : FileData
  deriving Repr, DecidableEq

/-- The `let fileObject = _data; if (typeof _data.getAsFile === 'function')
fileObject = _data.getAsFile();` resolution step. -/
def resolveFileObject (d : DropPayload) : Option FileData :=
  if d.hasGetAsFile then d.getAsFileResult else some d.selfFile

/-- The attachment source value stored in the `source` state: a string URL,
a function source (SVG), or undefined. -/
inductive SourceVal where
  | str (s : String)
  | func
  | undef
  deriving Repr, DecidableEq

/-- Modal presentation type, CONST.MODAL.MODAL_TYPE. -/
inductive ModalType where
  | centeredUnswipeable
  | centered
  deriving Repr, DecidableEq

/-- Environment of external collaborators: the configured size bounds
(CONST.API_ATTACHMENT_VALIDATIONS.MAX_SIZE / MIN_SIZE), the filename
cleaning rule (FileUtils.cleanFileName), the PDF sniffing predicate
(Str.isPDF), the object-URL allocator (URL.createObjectURL) and the
localized unknown-filename fallback. -/
structure Env where
  maxSize : Nat
  minSize : Nat
  cleanFileName : String → String
  isPDF : String → Bool
  createObjectURL : FileData → String
  unknownFilename : String

/-- The local component state relevant to the claims (one field per
useState hook used by the validation, confirmation and menu logic, plus the
`onModalHideCallbackRef` mutable cell, modelled as a Bool since the only
callback ever stored is the replace-receipt navigation). -/
structure CompState where
  isModalOpen : Bool
  shouldLoadAttachment : Bool
  isAttachmentInvalid : Bool
  isDeleteReceiptConfirmModalVisible : Bool
  attachmentInvalidReasonTitle : String
  attachmentInvalidReason : Option String
  source : SourceVal
  file : Option FileData
  modalType : ModalType
  isConfirmButtonDisabled : Bool
  hideCallbackQueued : Bool
  deriving Repr, DecidableEq

/-- Initial component state for given props: `defaultOpen`, the `source`
prop, and the optional `originalFileName` prop (which seeds `file` with a
name-only object). -/
def initState (defaultOpen : Bool) (propsSource : SourceVal)
    (originalFileName : Option String) : CompState :=
  { isModalOpen := defaultOpen
    shouldLoadAttachment := false
    isAttachmentInvalid := false
    isDeleteReceiptConfirmModalVisible := false
    attachmentInvalidReasonTitle := ""
    attachmentInvalidReason := none
    source := propsSource
    file := originalFileName.map fun n =>
      { name := some n, size := none, uri := none,
        isFileInstance := false, mimeType := none }
    modalType := ModalType.centeredUnswipeable
    isConfirmButtonDisabled := false
    hideCallbackQueued := false }

/-- JavaScript truthiness of a source value (`sourceURL && ...`). -/
def sourceTruthy : SourceVal → Bool
  | SourceVal.str s => s ≠ ""
  | SourceVal.func => true
  | SourceVal.undef => false

/-- The string a source contributes to `Str.isPDF(sourceURL)`; only the
string case is ever truthy-and-stringlike in the component's uses. -/
def sourceText : SourceVal → String
  | SourceVal.str s => s
  | SourceVal.func => ""
  | SourceVal.undef => ""

/-- `_file.name || translate('attachmentView.unknownFilename')`: the name
when present and nonempty, else the localized fallback. -/
def fileNameOrUnknown (env : Env) (f : FileData) : String :=
  match f.name with
  | some n => if n = "" then env.unknownFilename else n
  | none => env.unknownFilename

/-- getModalType: if the source (or the file's name) is a PDF, the
unswipeable centered modal type, otherwise the swipeable centered one. -/
def getModalType (env : Env) (sourceURL : SourceVal) (f : Option FileData) :
    ModalType :=
  if sourceTruthy sourceURL &&
      (env.isPDF (sourceText sourceURL) ||
        match f with
        | some f0 => env.isPDF (fileNameOrUnknown env f0)
        | none => false) then
    ModalType.centeredUnswipeable
  else
    ModalType.centered

/-- isValidFile: size above MAX_SIZE fails with attachmentTooLarge /
sizeExceeded, size below MIN_SIZE fails with attachmentTooSmall /
sizeNotMet, otherwise valid. Returns the updated state and the Boolean the
source returns. -/
def isValidFile (env : Env) (s : CompState) (f : FileData) :
    CompState × Bool :=
  if f.sizeOrZero > env.maxSize then
    ({ s with isAttachmentInvalid := true
              attachmentInvalidReasonTitle := "attachmentPicker.attachmentTooLarge"
              attachmentInvalidReason := some "attachmentPicker.sizeExceeded" },
      false)
  else if f.sizeOrZero < env.minSize then
    ({ s with isAttachmentInvalid := true
              attachmentInvalidReasonTitle := "attachmentPicker.attachmentTooSmall"
              attachmentInvalidReason := some "attachmentPicker.sizeNotMet" },
      false)
  else
    (s, true)

/-- isDirectoryCheck: a payload with a webkitGetAsEntry capability whose
entry is a directory fails with attachmentError / folderNotAllowedMessage. -/
def isDirectoryCheck (s : CompState) (d : DropPayload) : CompState × Bool :=
  if d.hasWebkitGetAsEntry && d.entryIsDirectory then
    ({ s with isAttachmentInvalid := true
              attachmentInvalidReasonTitle := "attachmentPicker.attachmentError"
              attachmentInvalidReason := some "attachmentPicker.folderNotAllowedMessage" },
      false)
  else
    (s, true)

/-- The file actually adopted on success: a File instance gets its name
cleaned (rebuilt via `new File` when the cleaned name differs, preserving
bytes and type); any other file object is adopted as-is. -/
def adoptedFile (env : Env) (f : FileData) : FileData :=
  if f.isFileInstance then
    if f.name.getD "" ≠ env.cleanFileName (f.name.getD "") then
      { f with name := some (env.cleanFileName (f.name.getD "")) }
    else f
  else f

/-- The source adopted on success: `URL.createObjectURL(updatedFile)` for a
File instance, `fileObject.uri` otherwise. -/
def adoptedSource (env : Env) (f : FileData) : SourceVal :=
  if f.isFileInstance then
    SourceVal.str (env.createObjectURL (adoptedFile env f))
  else
    match f.uri with
    | some u => SourceVal.str u
    | none => SourceVal.undef

/-- validateAndDisplayFileToUpload: directory check first (early return),
then getAsFile resolution (silent early return when it yields nothing),
then isValidFile (early return), then adoption: clean the name, open the
modal, set source, file and modal type. -/
def validateAndDisplayFileToUpload (env : Env) (s : CompState)
    (d : DropPayload) : CompState :=
  let dirRes := isDirectoryCheck s d
  if !dirRes.2 then dirRes.1
  else
    match resolveFileObject d with
    | none => dirRes.1
    | some fileObject =>
      let validRes := isValidFile env dirRes.1 fileObject
      if !validRes.2 then validRes.1
      else
        let updatedFile := adoptedFile env fileObject
        let inputSource := adoptedSource env fileObject
        { validRes.1 with
            isModalOpen := true
            source := inputSource
            file := some updatedFile
            modalType := getModalType env inputSource (some updatedFile) }

/-- External-effect events the component emits: the onConfirm callback
invoked with the current file extended with the current source. -/
inductive ConfirmEvent where
  | confirm (file : Option FileData) (src : SourceVal)
  deriving Repr, DecidableEq

/-- submitAndClose: no-op when the modal is already closed or the confirm
button is disabled; otherwise call props.onConfirm (when supplied) with the
current file extended with the current source, then close the modal.
Returns the updated state and the emitted callback events. -/
def submitAndClose (hasOnConfirm : Bool) (s : CompState) :
    CompState × List ConfirmEvent :=
  if !s.isModalOpen || s.isConfirmButtonDisabled then
    (s, [])
  else
    ({ s with isModalOpen := false },
      if hasOnConfirm then [ConfirmEvent.confirm s.file s.source] else [])

/-- An entry of the three-dots receipt menu. -/
inductive MenuItem where
  | replace
  | download
  | deleteReceipt
  deriving Repr, DecidableEq

/-- Inputs of the threeDotsMenuItems computation. The Onyx records and the
ReportUtils / ReportActionsUtils / Policy / TransactionUtils predicates
applied to them live outside the provided sources, so each predicate's
value at the current records is a Boolean input; the account identifiers
keep their JavaScript option shape for the strict-equality test. -/
structure MenuCtx where
  isAttachmentReceipt : Bool
  hasParentReport : Bool
  hasParentReportActions : Bool
  parentActionIsDeleted : Bool
  isSettled : Bool
  isAdminOfFreePolicy : Bool
  isExpenseReport : Bool
  isMoneyRequestReport : Bool
  sessionAccountID : Option Int
  parentActionActorAccountID : Option Int
  hasReceipt : Bool
  isReceiptBeingScanned : Bool
  deriving Repr, DecidableEq

/-- JavaScript strict equality between `lodashGet(session, 'accountID',
null)` and `parentReportAction.actorAccountID`: true only when both are
present and equal (null === undefined is false). -/
def accountIDMatches : Option Int → Option Int → Bool
  | some a, some b => a = b
  | _, _ => false

/-- threeDotsMenuItems: empty unless the attachment is a receipt and the
parent report and its actions are available; Replace is included when the
parent transaction is editable (not settled, action not deleted, and the
user is a free-policy admin of an expense report or the original
requestor); Download is always included; Delete receipt is included when
the transaction has a receipt that is not being scanned. -/
def threeDotsMenuItems (c : MenuCtx) : List MenuItem :=
  if !c.isAttachmentReceipt || !c.hasParentReport || !c.hasParentReportActions then
    []
  else
    let isAdmin := c.isAdminOfFreePolicy && c.isExpenseReport
    let isRequestor := c.isMoneyRequestReport &&
      accountIDMatches c.sessionAccountID c.parentActionActorAccountID
    let canEdit := !c.isSettled && !c.parentActionIsDeleted && (isAdmin || isRequestor)
    (if canEdit then [MenuItem.replace] else []) ++
      [MenuItem.download] ++
      (if c.hasReceipt && !c.isReceiptBeingScanned then [MenuItem.deleteReceipt] else [])

/-!  Modal lifecycle machine.

The Modal surface component is an external collaborator (it wraps the
platform modal with entrance/exit animations). Its hook discipline is
modelled from the spec: when the `isVisible` prop turns true the surface
starts its entrance transition and calls `onModalShow` once the transition
completes; when the prop turns false it starts its exit transition and
calls `onModalHide` once that completes. The AttachmentModal's handlers
for these hooks are translated from the source: the show handler calls
props.onModalShow then sets shouldLoadAttachment to true; the hide handler
calls props.onModalHide, then runs onModalHideCallbackRef.current when it
is set (without clearing it), then sets shouldLoadAttachment to false. -/

/-- Animation phase of the modal surface. -/
inductive Surface where
  | hidden
  | showing
  | shown
  | hiding
  deriving Repr, DecidableEq

/-- Observable events of a modal lifecycle run, newest first in the log:
the props.onModalShow / props.onModalHide hook invocations, the queueing of
the replace-receipt deferred action, and the deferred replace-receipt
navigation actually firing. -/
inductive MEvent where
  | showHook
  | hideHook
  | queueReplace
  | navReplace
  deriving Repr, DecidableEq

/-- State of the modal lifecycle machine: the component's isModalOpen and
shouldLoadAttachment hooks, the onModalHideCallbackRef cell (Bool: the only
callback ever stored is the replace-receipt navigation), the surface's
animation phase, and the event log (newest first). -/
structure MState where
  isModalOpen : Bool
  shouldLoadAttachment : Bool
  hideCallbackQueued : Bool
  surface : Surface
  log : List MEvent
  deriving Repr, DecidableEq

/-- Actions driving the machine: the component's openModal and closeModal
callbacks, the Replace menu item's onSelected handler (queue the deferred
navigation, then closeModal), and the surface's animation completions. -/
inductive MAction where
  | openModal
  | closeModal
  | selectReplace
  | showComplete
  | hideComplete
  deriving Repr, DecidableEq

/-- Effect of setting isModalOpen to true on the surface: a hidden or
hiding surface starts its entrance transition. -/
def surfaceOnOpen : Surface → Surface
  | Surface.hidden => Surface.showing
  | Surface.hiding => Surface.showing
  | ph => ph

/-- Effect of setting isModalOpen to false on the surface: a shown or
entering surface starts its exit transition. -/
def surfaceOnClose : Surface → Surface
  | Surface.shown => Surface.hiding
  | Surface.showing => Surface.hiding
  | ph => ph

/-- One step of the modal lifecycle machine. Animation completions are
no-ops unless the surface is in the matching transition phase with the
matching isVisible value. The hide-completion step runs the AttachmentModal
onModalHide handler: props.onModalHide, then the queued deferred action
when present — the cell is left set — then shouldLoadAttachment := false. -/
def mstep (s : MState) : MAction → MState
  | MAction.openModal =>
    { s with isModalOpen := true, surface := surfaceOnOpen s.surface }
  | MAction.closeModal =>
    { s with isModalOpen := false, surface := surfaceOnClose s.surface }
  | MAction.selectReplace =>
    { s with hideCallbackQueued := true
             isModalOpen := false
             surface := surfaceOnClose s.surface
             log := MEvent.queueReplace :: s.log }
  | MAction.showComplete =>
    if s.surface = Surface.showing && s.isModalOpen then
      { s with surface := Surface.shown
               shouldLoadAttachment := true
               log := MEvent.showHook :: s.log }
    else s
  | MAction.hideComplete =>
    if s.surface = Surface.hiding && !s.isModalOpen then
      { s with surface := Surface.hidden
               shouldLoadAttachment := false
               log := (if s.hideCallbackQueued then [MEvent.navReplace] else []) ++
                 MEvent.hideHook :: s.log }
    else s

/-- Initial machine state for a given defaultOpen prop: the surface starts
hidden (entering immediately when defaultOpen is set), nothing loaded,
nothing queued. -/
def minit (defaultOpen : Bool) : MState :=
  { isModalOpen := defaultOpen
    shouldLoadAttachment := false
    hideCallbackQueued := false
    surface := if defaultOpen then Surface.showing else Surface.hidden
    log := [] }

/-- Run the machine over a list of actions (oldest action first). -/
def mrun (defaultOpen : Bool) (acts : List MAction) : MState :=
  acts.foldl mstep (minit defaultOpen)

/-- Every deferred replace navigation in a (newest-first) log immediately
follows a hide hook: reading newest-first, each navReplace is immediately
succeeded by the hideHook that preceded it in time. -/
def navAfterHide : List MEvent → Bool
  | [] => true
  | MEvent.navReplace :: rest =>
    match rest with
    | MEvent.hideHook :: _ => navAfterHide rest
    | _ => false
  | _ :: rest => navAfterHide rest

/-!  Concrete instances used by the witnesses. -/

/-- A concrete environment: bounds 10..100, identity name cleaning, nothing
is a PDF, a fixed object-URL. -/
def envW : Env :=
  { maxSize := 100
    minSize := 10
    cleanFileName := fun n => n
    isPDF := fun _ => false
    createObjectURL := fun _ => "blob:demo"
    unknownFilename := "file" }

/-- A concrete prior component state with a previously active source and
file. -/
def sW : CompState := initState false (SourceVal.str "prior-source") (some "orig.jpg")

/-- A concrete non-File candidate named test.png of the given size. -/
def fileW (n : Nat) : FileData :=
  { name := some "test.png", size := some n, uri := some "file:demo.png",
    isFileInstance := false, mimeType := some "image/png" }

/-- A plain picker payload carrying the given file (no directory entry, no
getAsFile). -/
def payloadW (f : FileData) : DropPayload :=
  { hasWebkitGetAsEntry := false, entryIsDirectory := false,
    hasGetAsFile := false, getAsFileResult := none, selfFile := f }

/-!  Theorems for the claims. -/

/-- C3: the validation pipeline applies its rules in order with the first
failing rule winning: a directory-entry payload is rejected with the
folder-not-allowed reason regardless of its size; a non-directory payload
whose resolved file exceeds the maximum is rejected as sizeExceeded; a
non-directory payload whose resolved file is within the maximum but below
the minimum is rejected as sizeNotMet. -/
theorem validation_rules_in_order (env : Env) (s : CompState) (d : DropPayload) :
    ((d.hasWebkitGetAsEntry && d.entryIsDirectory) = true →
      (validateAndDisplayFileToUpload env s d).isAttachmentInvalid = true ∧
      (validateAndDisplayFileToUpload env s d).attachmentInvalidReason =
        some "attachmentPicker.folderNotAllowedMessage") ∧
    (∀ fo, (d.hasWebkitGetAsEntry && d.entryIsDirectory) = false →
      resolveFileObject d = some fo → fo.sizeOrZero > env.maxSize →
      (validateAndDisplayFileToUpload env s d).isAttachmentInvalid = true ∧
      (validateAndDisplayFileToUpload env s d).attachmentInvalidReason =
        some "attachmentPicker.sizeExceeded") ∧
    (∀ fo, (d.hasWebkitGetAsEntry && d.entryIsDirectory) = false →
      resolveFileObject d = some fo → fo.sizeOrZero ≤ env.maxSize →
      fo.sizeOrZero < env.minSize →
      (validateAndDisplayFileToUpload env s d).isAttachmentInvalid = true ∧
      (validateAndDisplayFileToUpload env s d).attachmentInvalidReason =
        some "attachmentPicker.sizeNotMet") := by
  refine ⟨fun hdir => ?_, fun fo hdir hres hsz => ?_, fun fo hdir hres hle hlt => ?_⟩
  · simp [validateAndDisplayFileToUpload, isDirectoryCheck, hdir]
  · simp [validateAndDisplayFileToUpload, isDirectoryCheck, hdir, hres,
      isValidFile, hsz]
  · have hng : ¬ fo.sizeOrZero > env.maxSize := by omega
    simp [validateAndDisplayFileToUpload, isDirectoryCheck, hdir, hres,
      isValidFile, hng, hlt]

/-- C3 witness: a directory payload of size 50 is rejected as a folder; a
101-byte payload is rejected as sizeExceeded; a 5-byte payload is rejected
as sizeNotMet (bounds 10..100). -/
theorem validation_rules_in_order_witness :
    ((validateAndDisplayFileToUpload envW sW
        { payloadW (fileW 50) with hasWebkitGetAsEntry := true, entryIsDirectory := true }).attachmentInvalidReason =
      some "attachmentPicker.folderNotAllowedMessage") ∧
    ((validateAndDisplayFileToUpload envW sW (payloadW (fileW 101))).attachmentInvalidReason =
      some "attachmentPicker.sizeExceeded") ∧
    ((validateAndDisplayFileToUpload envW sW (payloadW (fileW 5))).attachmentInvalidReason =
      some "attachmentPicker.sizeNotMet") :=
  ⟨((validation_rules_in_order envW sW
      { payloadW (fileW 50) with hasWebkitGetAsEntry := true, entryIsDirectory := true }).1
      (by decide)).2,
   (((validation_rules_in_order envW sW (payloadW (fileW 101))).2.1
      (fileW 101) (by decide) rfl (by decide))).2,
   (((validation_rules_in_order envW sW (payloadW (fileW 5))).2.2
      (fileW 5) (by decide) rfl (by decide) (by decide))).2⟩

/-- C4: a candidate whose byte size exceeds the configured maximum is
rejected with the sizeExceeded reason and the previously active source,
file and modal-open state are unchanged. -/
theorem oversize_file_rejected_state_unchanged (env : Env) (s : CompState)
    (d : DropPayload) (fo : FileData)
    (hdir : (d.hasWebkitGetAsEntry && d.entryIsDirectory) = false)
    (hres : resolveFileObject d = some fo)
    (hsz : fo.sizeOrZero > env.maxSize) :
    (validateAndDisplayFileToUpload env s d).isAttachmentInvalid = true ∧
    (validateAndDisplayFileToUpload env s d).attachmentInvalidReasonTitle =
      "attachmentPicker.attachmentTooLarge" ∧
    (validateAndDisplayFileToUpload env s d).attachmentInvalidReason =
      some "attachmentPicker.sizeExceeded" ∧
    (validateAndDisplayFileToUpload env s d).source = s.source ∧
    (validateAndDisplayFileToUpload env s d).file = s.file ∧
    (validateAndDisplayFileToUpload env s d).isModalOpen = s.isModalOpen := by
  simp [validateAndDisplayFileToUpload, isDirectoryCheck, hdir, hres,
    isValidFile, hsz]

/-- C4 witness: a file of exactly MAX_SIZE + 1 = 101 bytes is rejected as
sizeExceeded and the prior source is kept. -/
theorem oversize_file_rejected_witness :
    (validateAndDisplayFileToUpload envW sW (payloadW (fileW 101))).isAttachmentInvalid = true ∧
    (validateAndDisplayFileToUpload envW sW (payloadW (fileW 101))).attachmentInvalidReasonTitle =
      "attachmentPicker.attachmentTooLarge" ∧
    (validateAndDisplayFileToUpload envW sW (payloadW (fileW 101))).attachmentInvalidReason =
      some "attachmentPicker.sizeExceeded" ∧
    (validateAndDisplayFileToUpload envW sW (payloadW (fileW 101))).source = sW.source ∧
    (validateAndDisplayFileToUpload envW sW (payloadW (fileW 101))).file = sW.file ∧
    (validateAndDisplayFileToUpload envW sW (payloadW (fileW 101))).isModalOpen = sW.isModalOpen :=
  oversize_file_rejected_state_unchanged envW sW (payloadW (fileW 101)) (fileW 101)
    (by decide) rfl (by decide)

/-- C5: a candidate whose byte size is below the configured minimum
(including a 0-byte file) is rejected with the sizeNotMet reason and the
previously active source, file and modal-open state are unchanged; the
minimum is assumed not to exceed the maximum, as in the deployed
configuration. -/
theorem undersize_file_rejected_state_unchanged (env : Env) (s : CompState)
    (d : DropPayload) (fo : FileData)
    (hcfg : env.minSize ≤ env.maxSize)
    (hdir : (d.hasWebkitGetAsEntry && d.entryIsDirectory) = false)
    (hres : resolveFileObject d = some fo)
    (hsz : fo.sizeOrZero < env.minSize) :
    (validateAndDisplayFileToUpload env s d).isAttachmentInvalid = true ∧
    (validateAndDisplayFileToUpload env s d).attachmentInvalidReasonTitle =
      "attachmentPicker.attachmentTooSmall" ∧
    (validateAndDisplayFileToUpload env s d).attachmentInvalidReason =
      some "attachmentPicker.sizeNotMet" ∧
    (validateAndDisplayFileToUpload env s d).source = s.source ∧
    (validateAndDisplayFileToUpload env s d).file = s.file ∧
    (validateAndDisplayFileToUpload env s d).isModalOpen = s.isModalOpen := by
  have hng : ¬ fo.sizeOrZero > env.maxSize := by omega
  simp [validateAndDisplayFileToUpload, isDirectoryCheck, hdir, hres,
    isValidFile, hng, hsz]

/-- C5 witness: a 0-byte file named test.png is rejected as sizeNotMet and
the prior source is kept. -/
theorem undersize_file_rejected_witness :
    (validateAndDisplayFileToUpload envW sW (payloadW (fileW 0))).isAttachmentInvalid = true ∧
    (validateAndDisplayFileToUpload envW sW (payloadW (fileW 0))).attachmentInvalidReasonTitle =
      "attachmentPicker.attachmentTooSmall" ∧
    (validateAndDisplayFileToUpload envW sW (payloadW (fileW 0))).attachmentInvalidReason =
      some "attachmentPicker.sizeNotMet" ∧
    (validateAndDisplayFileToUpload envW sW (payloadW (fileW 0))).source = sW.source ∧
    (validateAndDisplayFileToUpload envW sW (payloadW (fileW 0))).file = sW.file ∧
    (validateAndDisplayFileToUpload envW sW (payloadW (fileW 0))).isModalOpen = sW.isModalOpen :=
  undersize_file_rejected_state_unchanged envW sW (payloadW (fileW 0)) (fileW 0)
    (by decide) (by decide) rfl (by decide)

/-- C6: a non-directory candidate whose size lies within the configured
bounds (inclusive) passes validation: the modal opens, the (name-cleaned)
file becomes the active AttachmentFile, the source becomes the file's
source, and no invalid-file dialog is raised. -/
theorem valid_file_adopted_and_modal_opened (env : Env) (s : CompState)
    (d : DropPayload) (fo : FileData)
    (hdir : (d.hasWebkitGetAsEntry && d.entryIsDirectory) = false)
    (hres : resolveFileObject d = some fo)
    (hmin : env.minSize ≤ fo.sizeOrZero)
    (hmax : fo.sizeOrZero ≤ env.maxSize) :
    (validateAndDisplayFileToUpload env s d).isModalOpen = true ∧
    (validateAndDisplayFileToUpload env s d).file = some (adoptedFile env fo) ∧
    (validateAndDisplayFileToUpload env s d).source = adoptedSource env fo ∧
    (validateAndDisplayFileToUpload env s d).isAttachmentInvalid =
      s.isAttachmentInvalid := by
  have hng : ¬ fo.sizeOrZero > env.maxSize := by omega
  have hnl : ¬ fo.sizeOrZero < env.minSize := by omega
  simp [validateAndDisplayFileToUpload, isDirectoryCheck, hdir, hres,
    isValidFile, hng, hnl]

/-- C6 witness: a 50-byte test.png (bounds 10..100) is adopted, its uri
becomes the source and the modal opens. -/
theorem valid_file_adopted_witness :
    (validateAndDisplayFileToUpload envW sW (payloadW (fileW 50))).isModalOpen = true ∧
    (validateAndDisplayFileToUpload envW sW (payloadW (fileW 50))).file =
      some (adoptedFile envW (fileW 50)) ∧
    (validateAndDisplayFileToUpload envW sW (payloadW (fileW 50))).source =
      adoptedSource envW (fileW 50) ∧
    (validateAndDisplayFileToUpload envW sW (payloadW (fileW 50))).isAttachmentInvalid =
      sW.isAttachmentInvalid :=
  valid_file_adopted_and_modal_opened envW sW (payloadW (fileW 50)) (fileW 50)
    (by decide) rfl (by decide) (by decide)

/-- C9: a non-directory drag/drop payload whose getAsFile yields no file
object is silently ignored: the component state is returned unchanged (no
invalid-file dialog, no adoption). -/
theorem missing_file_object_is_silent_noop (env : Env) (s : CompState)
    (d : DropPayload)
    (hdir : (d.hasWebkitGetAsEntry && d.entryIsDirectory) = false)
    (hfun : d.hasGetAsFile = true)
    (hnil : d.getAsFileResult = none) :
    validateAndDisplayFileToUpload env s d = s := by
  simp [validateAndDisplayFileToUpload, isDirectoryCheck, hdir,
    resolveFileObject, hfun, hnil]

/-- C9 witness: a payload with getAsFile returning null leaves the state
exactly as it was. -/
theorem missing_file_object_witness :
    validateAndDisplayFileToUpload envW sW
      { payloadW (fileW 50) with hasGetAsFile := true, getAsFileResult := none } = sW :=
  missing_file_object_is_silent_noop envW sW
    { payloadW (fileW 50) with hasGetAsFile := true, getAsFileResult := none }
    (by decide) (by decide) rfl

/-- C10: the size comparisons are strict in both directions — a file of
exactly the maximum size, or exactly the minimum size, passes isValidFile
with the state untouched — and a file object with no size property is read
as size 0 and rejected as sizeNotMet whenever the configured minimum is
positive. -/
theorem size_bounds_are_strict (env : Env) (s : CompState) (f : FileData) :
    (env.minSize ≤ env.maxSize → f.sizeOrZero = env.maxSize →
      isValidFile env s f = (s, true)) ∧
    (env.minSize ≤ env.maxSize → f.sizeOrZero = env.minSize →
      isValidFile env s f = (s, true)) ∧
    (f.size = none → 0 < env.minSize →
      (isValidFile env s f).2 = false ∧
      (isValidFile env s f).1.attachmentInvalidReason =
        some "attachmentPicker.sizeNotMet") := by
  refine ⟨fun hcfg hsz => ?_, fun hcfg hsz => ?_, fun hnone hmin => ?_⟩
  · have hng : ¬ f.sizeOrZero > env.maxSize := by omega
    have hnl : ¬ f.sizeOrZero < env.minSize := by omega
    simp [isValidFile, hng, hnl]
  · have hng : ¬ f.sizeOrZero > env.maxSize := by omega
    have hnl : ¬ f.sizeOrZero < env.minSize := by omega
    simp [isValidFile, hng, hnl]
  · have hz : f.sizeOrZero = 0 := by simp [FileData.sizeOrZero, hnone]
    have hng : ¬ f.sizeOrZero > env.maxSize := by omega
    have hlt : f.sizeOrZero < env.minSize := by omega
    simp [isValidFile, hng, hlt]

/-- C10 witness: with bounds 10..100, a 100-byte file passes, a 10-byte
file passes, and a file with no size property is rejected as sizeNotMet. -/
theorem size_bounds_are_strict_witness :
    isValidFile envW sW (fileW 100) = (sW, true) ∧
    isValidFile envW sW (fileW 10) = (sW, true) ∧
    (isValidFile envW sW { fileW 0 with size := none }).2 = false ∧
    (isValidFile envW sW { fileW 0 with size := none }).1.attachmentInvalidReason =
      some "attachmentPicker.sizeNotMet" :=
  ⟨(size_bounds_are_strict envW sW (fileW 100)).1 (by decide) (by decide),
   (size_bounds_are_strict envW sW (fileW 10)).2.1 (by decide) (by decide),
   ((size_bounds_are_strict envW sW { fileW 0 with size := none }).2.2 rfl (by decide)).1,
   ((size_bounds_are_strict envW sW { fileW 0 with size := none }).2.2 rfl (by decide)).2⟩

/-- C7: submitAndClose is a no-op when the modal is closed or the confirm
gate is disabled; otherwise, with a caller-supplied confirm callback, it
emits exactly one confirm event carrying the current file and source and
closes the modal, leaving every other state field unchanged. -/
theorem submitAndClose_gate_and_effect (hasOnConfirm : Bool) (s : CompState) :
    ((s.isModalOpen = false ∨ s.isConfirmButtonDisabled = true) →
      submitAndClose hasOnConfirm s = (s, [])) ∧
    (s.isModalOpen = true → s.isConfirmButtonDisabled = false →
      submitAndClose true s =
        ({ s with isModalOpen := false }, [ConfirmEvent.confirm s.file s.source])) := by
  constructor
  · intro h
    rcases h with h | h <;> simp [submitAndClose, h]
  · intro hopen hdis
    simp [submitAndClose, hopen, hdis]

/-- C7 witness: on an open, enabled state submitAndClose closes the modal
and emits the confirm event; on a closed state it is a no-op. -/
theorem submitAndClose_witness :
    submitAndClose true { sW with isModalOpen := true } =
      ({ sW with isModalOpen := false },
        [ConfirmEvent.confirm sW.file sW.source]) ∧
    submitAndClose true sW = (sW, []) :=
  ⟨(submitAndClose_gate_and_effect true { sW with isModalOpen := true }).2 rfl rfl,
   (submitAndClose_gate_and_effect true sW).1 (Or.inl rfl)⟩

/-- A settled parent transaction with an attached, non-scanning receipt:
the attachment is a receipt and the parent report context is present. -/
def ctxSettled : MenuCtx :=
  { isAttachmentReceipt := true
    hasParentReport := true
    hasParentReportActions := true
    parentActionIsDeleted := false
    isSettled := true
    isAdminOfFreePolicy := true
    isExpenseReport := true
    isMoneyRequestReport := true
    sessionAccountID := some 7
    parentActionActorAccountID := some 7
    hasReceipt := true
    isReceiptBeingScanned := false }

/-- C2 counterexample: for a settled parent transaction whose receipt is
attached and not being scanned, the computed menu is exactly Download
followed by Delete receipt — Delete receipt is present despite the
settledness, contradicting the claim that it is absent. -/
theorem settled_menu_counterexample :
    ctxSettled.isSettled = true ∧
    threeDotsMenuItems ctxSettled = [MenuItem.download, MenuItem.deleteReceipt] ∧
    MenuItem.deleteReceipt ∈ threeDotsMenuItems ctxSettled := by
  decide

/-- C2 amended: for a settled parent transaction, Replace is never in the
menu; when the menu is computed at all (receipt attachment with parent
report context), Download is present and Delete receipt is present exactly
when the transaction has a receipt that is not being scanned — its
membership is independent of settledness. -/
theorem settled_menu_membership (c : MenuCtx) (hs : c.isSettled = true) :
    MenuItem.replace ∉ threeDotsMenuItems c ∧
    (c.isAttachmentReceipt = true → c.hasParentReport = true →
      c.hasParentReportActions = true →
      MenuItem.download ∈ threeDotsMenuItems c ∧
      (MenuItem.deleteReceipt ∈ threeDotsMenuItems c ↔
        c.hasReceipt = true ∧ c.isReceiptBeingScanned = false)) := by
  constructor
  · simp only [threeDotsMenuItems, hs]
    split
    · simp
    · simp only [Bool.not_true, Bool.false_and, Bool.and_false]
      cases hr : c.hasReceipt && !c.isReceiptBeingScanned <;> simp
  · intro h1 h2 h3
    simp only [threeDotsMenuItems, hs, h1, h2, h3]
    constructor
    · simp
    · constructor
      · intro hmem
        simp only [Bool.not_true, Bool.false_and, Bool.and_false] at hmem
        by_cases hr : (c.hasReceipt && !c.isReceiptBeingScanned) = true
        · rcases Bool.and_eq_true_iff.mp hr with ⟨ha, hb⟩
          exact ⟨ha, by simpa using hb⟩
        · simp [hr] at hmem
      · rintro ⟨ha, hb⟩
        simp [ha, hb]

/-- C2 amended witness: in the settled context with a non-scanning receipt,
Replace is absent, Download present, and Delete receipt present. -/
theorem settled_menu_membership_witness :
    MenuItem.replace ∉ threeDotsMenuItems ctxSettled ∧
    (MenuItem.download ∈ threeDotsMenuItems ctxSettled ∧
      (MenuItem.deleteReceipt ∈ threeDotsMenuItems ctxSettled ↔
        ctxSettled.hasReceipt = true ∧ ctxSettled.isReceiptBeingScanned = false)) :=
  ⟨(settled_menu_membership ctxSettled rfl).1,
   (settled_menu_membership ctxSettled rfl).2 rfl rfl rfl⟩

/-- One machine step preserves the each-navigation-immediately-after-a-
hide-hook property of the log. -/
theorem navAfterHide_mstep (s : MState) (a : MAction)
    (h : navAfterHide s.log = true) : navAfterHide (mstep s a).log = true := by
  cases a with
  | openModal => simpa [mstep] using h
  | closeModal => simpa [mstep] using h
  | selectReplace => simpa [mstep, navAfterHide] using h
  | showComplete =>
    by_cases hc : (s.surface = Surface.showing && s.isModalOpen) = true
    · simpa [mstep, hc, navAfterHide] using h
    · simpa [mstep, hc] using h
  | hideComplete =>
    by_cases hc : (s.surface = Surface.hiding && !s.isModalOpen) = true
    · cases hq : s.hideCallbackQueued <;>
        simpa [mstep, hc, hq, navAfterHide] using h
    · simpa [mstep, hc] using h

/-- Folding any action list preserves the log ordering property. -/
theorem navAfterHide_foldl (acts : List MAction) (s : MState)
    (h : navAfterHide s.log = true) :
    navAfterHide (acts.foldl mstep s).log = true := by
  induction acts generalizing s with
  | nil => exact h
  | cons a rest ih => exact ih (mstep s a) (navAfterHide_mstep s a h)

/-- No machine step ever clears the queued hide callback. -/
theorem queued_persists_mstep (s : MState) (a : MAction)
    (h : s.hideCallbackQueued = true) : (mstep s a).hideCallbackQueued = true := by
  cases a <;> simp only [mstep] <;> first
    | exact h
    | rfl
    | (split <;> simp [h])

/-- Running one more action keeps the machine's run compositional. -/
theorem mrun_append_one (d : Bool) (acts : List MAction) (a : MAction) :
    mrun d (acts ++ [a]) = mstep (mrun d acts) a := by
  simp [mrun, List.foldl_append]

/-- A trace queueing the replace action once and then completing two full
open/close cycles. -/
def replaceQueueTrace : List MAction :=
  [MAction.openModal, MAction.showComplete, MAction.selectReplace]

/-- The trace: open, select Replace (queue and close), hide completes,
reopen, close again, hide completes again. -/
def replaceTwiceTrace : List MAction :=
  replaceQueueTrace ++
    [MAction.hideComplete, MAction.openModal, MAction.showComplete,
      MAction.closeModal, MAction.hideComplete]

/-- C1 counterexample: after queueing the replace action once and then
completing two close cycles, the replace navigation has run twice and the
queued callback cell is still set — the deferred action is not cleared
after it runs and does not execute exactly once per queued request. -/
theorem deferred_replace_runs_again_counterexample :
    (mrun false replaceTwiceTrace).log.count MEvent.queueReplace = 1 ∧
    (mrun false replaceTwiceTrace).log.count MEvent.navReplace = 2 ∧
    (mrun false replaceTwiceTrace).hideCallbackQueued = true := by
  decide

/-- C1 amended: the deferred replace navigation runs strictly after the
hide hook — in every reachable log each navigation event immediately
follows the hide-hook event — and a hide completion with the callback
queued emits the hide hook and then the navigation; but the queued callback
is never cleared: once queued it survives every further action, so every
later hide completion runs the navigation again. -/
theorem deferred_replace_after_hide_only_not_cleared (d : Bool)
    (acts : List MAction) :
    navAfterHide (mrun d acts).log = true ∧
    ((mrun d acts).hideCallbackQueued = true →
      (∀ a, (mrun d (acts ++ [a])).hideCallbackQueued = true) ∧
      ((mrun d acts).surface = Surface.hiding → (mrun d acts).isModalOpen = false →
        (mstep (mrun d acts) MAction.hideComplete).log =
          MEvent.navReplace :: MEvent.hideHook :: (mrun d acts).log)) := by
  refine ⟨navAfterHide_foldl acts (minit d) rfl, fun hq => ⟨fun a => ?_, fun hs ho => ?_⟩⟩
  · rw [mrun_append_one]
    exact queued_persists_mstep (mrun d acts) a hq
  · simp [mstep, hs, ho, hq]

/-- C1 amended witness: after open, show completion and selecting Replace,
the log satisfies the ordering property, a further close keeps the callback
queued, and the pending hide completion emits the hide hook followed by the
navigation. -/
theorem deferred_replace_amended_witness :
    navAfterHide (mrun false replaceQueueTrace).log = true ∧
    (mrun false (replaceQueueTrace ++ [MAction.closeModal])).hideCallbackQueued = true ∧
    (mstep (mrun false replaceQueueTrace) MAction.hideComplete).log =
      MEvent.navReplace :: MEvent.hideHook :: (mrun false replaceQueueTrace).log :=
  ⟨(deferred_replace_after_hide_only_not_cleared false replaceQueueTrace).1,
   ((deferred_replace_after_hide_only_not_cleared false replaceQueueTrace).2
      (by decide)).1 MAction.closeModal,
   ((deferred_replace_after_hide_only_not_cleared false replaceQueueTrace).2
      (by decide)).2 (by decide) (by decide)⟩

/-- One machine step preserves the invariant that the attachment-loading
flag is cleared whenever the modal surface is fully hidden. -/
theorem load_flag_inv_mstep (s : MState) (a : MAction)
    (h : s.surface = Surface.hidden → s.shouldLoadAttachment = false) :
    (mstep s a).surface = Surface.hidden → (mstep s a).shouldLoadAttachment = false := by
  cases a with
  | openModal =>
    cases hs : s.surface <;> simp [mstep, surfaceOnOpen, hs]
  | closeModal =>
    cases hs : s.surface <;> simp [mstep, surfaceOnClose, hs]
    exact h hs
  | selectReplace =>
    cases hs : s.surface <;> simp [mstep, surfaceOnClose, hs]
    exact h hs
  | showComplete =>
    by_cases hc : (s.surface = Surface.showing && s.isModalOpen) = true
    · simp [mstep, hc]
    · simpa [mstep, hc] using h
  | hideComplete =>
    by_cases hc : (s.surface = Surface.hiding && !s.isModalOpen) = true
    · simp [mstep, hc]
    · simpa [mstep, hc] using h

/-- Folding any action list preserves the loading-flag invariant. -/
theorem load_flag_inv_foldl (acts : List MAction) (s : MState)
    (h : s.surface = Surface.hidden → s.shouldLoadAttachment = false) :
    (acts.foldl mstep s).surface = Surface.hidden →
      (acts.foldl mstep s).shouldLoadAttachment = false := by
  induction acts generalizing s with
  | nil => exact h
  | cons a rest ih => exact ih (mstep s a) (load_flag_inv_mstep s a h)

/-- C8: in every reachable state of the modal lifecycle machine, if the
content-loading flag is set then the modal is not in the fully closed
state (the state entered when the hide transition completes and the onHide
hook has fired): the flag is true only while the modal is open in the
sense of the spec's two-state machine, never once it is Closed. -/
theorem loading_flag_only_while_open (d : Bool) (acts : List MAction)
    (h : (mrun d acts).shouldLoadAttachment = true) :
    (mrun d acts).surface ≠ Surface.hidden := by
  intro hs
  have hf := load_flag_inv_foldl acts (minit d) (by cases d <;> simp [minit]) hs
  rw [show (mrun d acts) = acts.foldl mstep (minit d) from rfl, hf] at h
  exact Bool.false_ne_true h

/-- C8 witness: after opening and the show transition completing, the
loading flag is set and the surface is indeed not hidden. -/
theorem loading_flag_witness :
    (mrun false [MAction.openModal, MAction.showComplete]).surface ≠ Surface.hidden :=
  loading_flag_only_while_open false [MAction.openModal, MAction.showComplete] (by decide)

end AttachmentModal
